import Mathlib

/-!
# DacpAccessory: session lifecycle of the DACP accessory

A shallow embedding of `src/DacpAccessory.js`.

* The accessory object is a record of the fields the class assigns.
* Every call that leaves the class (client calls, projector calls, `log`,
  `setTimeout`) is recorded, in program order, in a trace of events.
* The promises returned by the client are answered by a script: the list of
  outcomes of the client's promises in the order in which they are issued.
  When the script is exhausted the outstanding promise stays pending.
* JavaScript numbers that the class computes with are integers, `NaN` or
  `undefined` (DACP durations are 32-bit millisecond counts, the failure
  counter is a small integer), so `JsNum` has exactly these three shapes.
* The collaborators (`log`, `logout`, the projectors) return normally, as their
  interface says (fire-and-forget, no-throw).
-/

namespace DacpAccessory

/-! ## JavaScript values -/

/-- A JavaScript value used as a number: `undefined`, `NaN` or an integer. -/
inductive JsNum where
  | undefined
  | nan
  | num (n : Int)
  deriving DecidableEq, Repr

namespace JsNum

/-- The value stored by `x++`: `ToNumber(x) + 1`. -/
def increment : JsNum → JsNum
  | undefined => nan
  | nan => nan
  | num n => num (n + 1)

/-- The comparison `x < k` for an integer literal `k`; false when `x` is not a number. -/
def lessThan : JsNum → Int → Bool
  | num n, k => decide (n < k)
  | _, _ => false

/-- The binary operator `a - b`. -/
def sub : JsNum → JsNum → JsNum
  | num a, num b => num (a - b)
  | _, _ => nan

end JsNum

/-- Template-literal rendering of a string-valued field that may be `undefined`. -/
def templateString : Option String → String
  | some s => s
  | none => "undefined"

/-- Template-literal rendering of a number-valued field that may be `undefined`. -/
def templateNumber : Option Nat → String
  | some n => toString n
  | none => "undefined"

/-! ## Data exchanged with the collaborators -/

/-- The status sub-record `cmst` of an update snapshot; an absent field is `undefined`. -/
structure Status where
  cann : Option String
  canl : Option String
  cana : Option String
  cast : JsNum
  cant : JsNum
  caps : JsNum
  deriving DecidableEq, Repr

/-- The `msrv` sub-record of the server info. -/
structure Msrv where
  minm : Option String
  deriving DecidableEq, Repr

/-- A value a client promise resolves with: `undefined`/`null`, or a value whose
`msrv` and `cmst` properties can be read (`none`: the property is absent or,
for `cmst`, falsy). -/
inductive Reply where
  | nullish
  | object (msrv : Option Msrv) (cmst : Option Status)
  deriving DecidableEq, Repr

/-- What is thrown or rejected. -/
inductive Cause where
  | rejected (text : String)
  | typeError (property : String)
  | referenceError (identifier : String)
  deriving DecidableEq, Repr

/-- The outcome of one promise returned by the client. -/
inductive Outcome where
  | resolve (value : Reply)
  | reject (cause : Cause)
  deriving DecidableEq, Repr

/-- The state object built by `_updateNowPlaying`. -/
structure NowPlayingState where
  track : Option String
  album : Option String
  artist : Option String
  position : JsNum
  duration : JsNum
  playerState : JsNum
  deriving DecidableEq, Repr

/-- The state object built by `_updatePlayerControlService`. -/
structure PlayerState where
  playerState : JsNum
  deriving DecidableEq, Repr

/-- The lines the class writes through `this.log`. -/
inductive LogMsg where
  | fatalError (name : String)
  | blank
  | errorJson (json : String)
  | restarting (seconds : Nat)
  | givingUp
  | fileAnIssue
  | retrievingFailed (name : String)
  | connected (minm : Option String)
  | connectionFailed (name : String) (cause : Cause)
  deriving DecidableEq, Repr

/-- The functions handed to `setTimeout`. -/
inductive Callback where
  | connectToDacpDevice
  deriving DecidableEq, Repr

/-- One call that leaves the class. -/
inductive Event where
  | log (msg : LogMsg)
  | login (host : String) (pairing : String)
  | logout
  | getServerInfo
  | getUpdate
  | updateNowPlaying (state : NowPlayingState)
  | updatePlayerState (state : PlayerState)
  | speakerUpdate
  | setTimeout (callback : Callback) (delay : Nat)
  deriving DecidableEq, Repr

/-! ## The accessory -/

/-- The `features` object of the configuration; `volumeControl` is the entry
`'volume-control'` (`none`: absent). -/
structure Features where
  volumeControl : Option Bool
  deriving DecidableEq, Repr

/-- The `config` argument of the constructor. -/
structure Config where
  name : String
  pairing : String
  serviceName : String
  version : String
  features : Option Features
  deriving DecidableEq, Repr

/-- The endpoint passed to `serviceUp`. -/
structure Service where
  host : String
  port : Nat
  deriving DecidableEq, Repr

/-- The fields of a `DacpAccessory` instance. `_speakerService` records whether the
field holds a `SpeakerService`; `_remoteHost`, `_remotePort` and `_dacpErrors` are
`undefined` until they are assigned. -/
structure Fields where
  name : String
  pairing : String
  serviceName : String
  version : String
  features : Features
  _speakerService : Bool
  _remoteHost : Option String
  _remotePort : Option Nat
  _dacpErrors : JsNum
  deriving DecidableEq, Repr

/-- The accessory together with what it can observe and what can be observed of it:
the calls made so far and the binding, if any, of the identifier `error` in the
global scope (the module declares none), given by its `JSON.stringify` text. -/
structure World where
  self : Fields
  trace : List Event
  globalError : Option String
  deriving DecidableEq, Repr

/-- How a synchronous call ends. -/
inductive Completion where
  | normal
  | throw (cause : Cause)
  deriving DecidableEq, Repr

/-- Record calls at the end of the trace. -/
def World.emit (w : World) (es : List Event) : World :=
  { w with trace := w.trace ++ es }

/-- The body of `getSpeakerService`: is `this._speakerService` assigned? -/
def getSpeakerService (features : Features) : Bool :=
  if features.volumeControl = some false then false else true

/-- The constructor (lines 14-33): copies the configuration, `features` defaults to
`{}`, the services are created; `_remoteHost`, `_remotePort` and `_dacpErrors` are
not assigned. -/
def constructor (config : Config) : Fields :=
  let features := config.features.getD { volumeControl := none }
  { name := config.name
    pairing := config.pairing
    serviceName := config.serviceName
    version := config.version
    features := features
    _speakerService := getSpeakerService features
    _remoteHost := none
    _remotePort := none
    _dacpErrors := JsNum.undefined }

/-- A freshly constructed accessory in a scope where `error` is bound or not. -/
def World.init (config : Config) (globalError : Option String) : World :=
  { self := DacpAccessory.constructor config, trace := [], globalError := globalError }

/-- Lines 112-123. -/
def _updateNowPlaying (w : World) (response : Status) : World :=
  let state : NowPlayingState :=
    { track := response.cann
      album := response.canl
      artist := response.cana
      position := response.cast.sub response.cant
      duration := response.cast
      playerState := response.caps }
  w.emit [Event.updateNowPlaying state]

/-- Lines 125-131. -/
def _updatePlayerControlService (w : World) (response : Status) : World :=
  let state : PlayerState := { playerState := response.caps }
  w.emit [Event.updatePlayerState state]

/-- Lines 96-99, the first `then` of the polling chain. -/
def onUpdate (w : World) (cmst : Option Status) : World :=
  match cmst with
  | some r => _updatePlayerControlService (_updateNowPlaying w r) r
  | none => w

/-- Lines 102-104, the second `then` of the polling chain. -/
def updateSpeaker (w : World) : World :=
  if w.self._speakerService then w.emit [Event.speakerUpdate] else w

/-- Lines 93-110. `getUpdate()` is issued; its outcome is the head of the script.
A rejection, or a `TypeError` from reading `cmst` of a nullish response, skips the
remaining `then` handlers and reaches the `catch`, which logs. -/
def _startRetrievingUpdates (w : World) : List Outcome → World
  | [] => w.emit [Event.getUpdate]
  | Outcome.reject _ :: _ =>
      (w.emit [Event.getUpdate]).emit [Event.log (LogMsg.retrievingFailed w.self.name)]
  | Outcome.resolve Reply.nullish :: _ =>
      (w.emit [Event.getUpdate]).emit [Event.log (LogMsg.retrievingFailed w.self.name)]
  | Outcome.resolve (Reply.object _ cmst) :: rest =>
      _startRetrievingUpdates (updateSpeaker (onUpdate (w.emit [Event.getUpdate]) cmst)) rest

/-- Lines 133-153. The identifier `error` of line 136 is not the parameter `e`: it is
looked up in the global scope, and the lookup throws a `ReferenceError` when there
is no such binding. -/
def _onDacpFailure (w : World) (_e : Cause) : World × Completion :=
  let w1 := w.emit [Event.log (LogMsg.fatalError w.self.name), Event.log LogMsg.blank]
  match w1.globalError with
  | none => (w1, Completion.throw (Cause.referenceError "error"))
  | some json =>
    let w2 := w1.emit [Event.log (LogMsg.errorJson json), Event.log LogMsg.blank]
    let w3 : World := { w2 with self := { w2.self with _dacpErrors := w2.self._dacpErrors.increment } }
    let w4 := w3.emit [Event.logout]
    let w5 :=
      if w4.self._dacpErrors.lessThan 5 then
        w4.emit [Event.log (LogMsg.restarting (120000 / 1000)),
                 Event.setTimeout Callback.connectToDacpDevice 120000]
      else
        w4.emit [Event.log LogMsg.givingUp, Event.log LogMsg.blank, Event.log LogMsg.fileAnIssue]
    (w5.emit [Event.log LogMsg.blank], Completion.normal)

/-- Lines 28-30: the listener of the client's `error` event. -/
def onClientError (w : World) (e : Cause) : World × Completion :=
  _onDacpFailure w e

/-- The argument of `login` built on line 156. -/
def loginHost (self : Fields) : String :=
  templateString self._remoteHost ++ ":" ++ templateNumber self._remotePort

/-- Lines 160-165, the `catch` of the connect chain up to the re-invocation. -/
def onConnectFailure (w : World) (error : Cause) : World :=
  w.emit [Event.log (LogMsg.connectionFailed w.self.name error), Event.logout]

/-- Lines 155-166. -/
def _connectToDacpDevice (w : World) : List Outcome → World
  | [] => w.emit [Event.login (loginHost w.self) w.self.pairing]
  | Outcome.reject error :: rest =>
      _connectToDacpDevice
        (onConnectFailure (w.emit [Event.login (loginHost w.self) w.self.pairing]) error) rest
  | Outcome.resolve _ :: [] =>
      w.emit [Event.login (loginHost w.self) w.self.pairing, Event.getServerInfo]
  | Outcome.resolve _ :: Outcome.reject error :: rest =>
      _connectToDacpDevice
        (onConnectFailure
          (w.emit [Event.login (loginHost w.self) w.self.pairing, Event.getServerInfo]) error) rest
  | Outcome.resolve _ :: Outcome.resolve Reply.nullish :: rest =>
      _connectToDacpDevice
        (onConnectFailure
          (w.emit [Event.login (loginHost w.self) w.self.pairing, Event.getServerInfo])
          (Cause.typeError "msrv")) rest
  | Outcome.resolve _ :: Outcome.resolve (Reply.object none _) :: rest =>
      _connectToDacpDevice
        (onConnectFailure
          (w.emit [Event.login (loginHost w.self) w.self.pairing, Event.getServerInfo])
          (Cause.typeError "minm")) rest
  | Outcome.resolve _ :: Outcome.resolve (Reply.object (some msrv) _) :: rest =>
      _startRetrievingUpdates
        (w.emit [Event.login (loginHost w.self) w.self.pairing, Event.getServerInfo,
                 Event.log (LogMsg.connected msrv.minm)]) rest

/-- Lines 82-87. -/
def serviceUp (w : World) (service : Service) (script : List Outcome) : World :=
  let w1 : World :=
    { w with self := { w.self with _remoteHost := some service.host
                                   _remotePort := some service.port } }
  _connectToDacpDevice w1 script

/-- Lines 89-91. -/
def serviceDown (w : World) : World :=
  w.emit [Event.logout]

/-- The expiry of a timer: the callback handed to `setTimeout` runs. -/
def fire (callback : Callback) (w : World) (script : List Outcome) : World :=
  match callback with
  | Callback.connectToDacpDevice => _connectToDacpDevice w script

/-! ## Observations on traces -/

/-- Is the event a call of `logout()`? -/
def Event.isLogout : Event → Bool
  | Event.logout => true
  | _ => false

/-- Is the event a call of `login()`? -/
def Event.isLogin : Event → Bool
  | Event.login _ _ => true
  | _ => false

/-- Is the event a call of `setTimeout`? -/
def Event.isSetTimeout : Event → Bool
  | Event.setTimeout _ _ => true
  | _ => false

/-- Is the event a call of `getUpdate()`? -/
def Event.isGetUpdate : Event → Bool
  | Event.getUpdate => true
  | _ => false

/-- Is the event a call of `update()` on the speaker service? -/
def Event.isSpeakerUpdate : Event → Bool
  | Event.speakerUpdate => true
  | _ => false

/-- Is the event a call on the client? -/
def Event.isClientCall : Event → Bool
  | Event.login _ _ => true
  | Event.logout => true
  | Event.getServerInfo => true
  | Event.getUpdate => true
  | _ => false

/-- Is the event a slice handed to the Now-Playing or Player-Controls projector? -/
def Event.isSlice : Event → Bool
  | Event.updateNowPlaying _ => true
  | Event.updatePlayerState _ => true
  | _ => false

/-- The slices one snapshot yields, in forwarding order. -/
def slicesOf : Option Status → List Event
  | some r =>
      [Event.updateNowPlaying
          { track := r.cann, album := r.canl, artist := r.cana,
            position := r.cast.sub r.cant, duration := r.cast, playerState := r.caps },
       Event.updatePlayerState { playerState := r.caps }]
  | none => []

/-- The calls of one completed polling iteration with a speaker service present or not. -/
def iterationOf (speaker : Bool) (cmst : Option Status) : List Event :=
  Event.getUpdate :: (slicesOf cmst ++ (if speaker then [Event.speakerUpdate] else []))

/-- An update snapshot: a non-nullish value resolved by `getUpdate()`. -/
structure Snapshot where
  msrv : Option Msrv
  cmst : Option Status
  deriving DecidableEq, Repr

/-- The promise outcome that delivers a snapshot. -/
def Snapshot.outcome (s : Snapshot) : Outcome :=
  Outcome.resolve (Reply.object s.msrv s.cmst)

/-- The calls of a run of completed polling iterations, snapshot by snapshot. -/
def iterationsOf (speaker : Bool) : List Snapshot → List Event
  | [] => []
  | s :: ss => iterationOf speaker s.cmst ++ iterationsOf speaker ss

/-- The slices of a run of snapshots, in arrival order. -/
def slicesOfAll : List Snapshot → List Event
  | [] => []
  | s :: ss => slicesOf s.cmst ++ slicesOfAll ss

/-- A sample configuration. -/
def sampleConfig : Config :=
  { name := "iTunes", pairing := "0x0000000000000001", serviceName := "library",
    version := "0.3.0", features := none }

/-- A sample configuration with the volume control switched off. -/
def noVolumeConfig : Config :=
  { sampleConfig with features := some { volumeControl := some false } }

/-- A sample status record: 200 s track, 150 s remaining, playing. -/
def sampleStatus : Status :=
  { cann := some "Track", canl := some "Album", cana := some "Artist",
    cast := JsNum.num 200000, cant := JsNum.num 150000, caps := JsNum.num 4 }

/-- An accessory whose failure counter holds the integer `c`, in a scope where the
identifier `error` is bound as `globalError` says. -/
def withCounter (config : Config) (c : Int) (globalError : Option String) : World :=
  { self := { DacpAccessory.constructor config with _dacpErrors := JsNum.num c }
    trace := []
    globalError := globalError }

end DacpAccessory

namespace DacpAccessory

/-! ## Basic facts about the trace -/

theorem emit_self (w : World) (es : List Event) : (w.emit es).self = w.self := rfl

theorem emit_trace (w : World) (es : List Event) : (w.emit es).trace = w.trace ++ es := rfl

theorem emit_globalError (w : World) (es : List Event) :
    (w.emit es).globalError = w.globalError := rfl

theorem emit_emit (w : World) (as bs : List Event) :
    (w.emit as).emit bs = w.emit (as ++ bs) := by
  simp [World.emit, List.append_assoc]

theorem emit_nil (w : World) : w.emit [] = w := by
  simp [World.emit]

theorem onUpdate_eq (w : World) (cmst : Option Status) :
    onUpdate w cmst = w.emit (slicesOf cmst) := by
  cases cmst with
  | none => simp [onUpdate, slicesOf, emit_nil]
  | some r => simp [onUpdate, slicesOf, _updateNowPlaying, _updatePlayerControlService, emit_emit]

theorem updateSpeaker_eq (w : World) :
    updateSpeaker w = w.emit (if w.self._speakerService then [Event.speakerUpdate] else []) := by
  unfold updateSpeaker
  split <;> simp [emit_nil]

/-- One completed iteration of the polling loop. -/
theorem poll_step (w : World) (s : Snapshot) (rest : List Outcome) :
    _startRetrievingUpdates w (s.outcome :: rest)
      = _startRetrievingUpdates (w.emit (iterationOf w.self._speakerService s.cmst)) rest := by
  simp [Snapshot.outcome, _startRetrievingUpdates, onUpdate_eq, updateSpeaker_eq, emit_emit,
    emit_self, iterationOf]

/-- A run of completed iterations of the polling loop. -/
theorem poll_steps (snaps : List Snapshot) (w : World) (rest : List Outcome) :
    _startRetrievingUpdates w (snaps.map Snapshot.outcome ++ rest)
      = _startRetrievingUpdates (w.emit (iterationsOf w.self._speakerService snaps)) rest := by
  induction snaps generalizing w with
  | nil => simp [iterationsOf, emit_nil]
  | cons s ss ih =>
    simp only [List.map_cons, List.cons_append, poll_step, ih, emit_self, emit_emit, iterationsOf]

/-- The polling loop assigns no field. -/
theorem poll_self (script : List Outcome) (w : World) :
    (_startRetrievingUpdates w script).self = w.self := by
  induction script generalizing w with
  | nil => rfl
  | cons o rest ih =>
    cases o with
    | reject c => rfl
    | resolve v =>
      cases v with
      | nullish => rfl
      | object m c =>
        simp only [_startRetrievingUpdates, ih, onUpdate_eq, updateSpeaker_eq, emit_self]

/-- The polling loop starts by issuing `getUpdate()`. -/
theorem poll_head (script : List Outcome) (w : World) :
    ∃ more, (_startRetrievingUpdates w script).trace = w.trace ++ Event.getUpdate :: more := by
  induction script generalizing w with
  | nil => exact ⟨[], rfl⟩
  | cons o rest ih =>
    cases o with
    | reject c => exact ⟨[Event.log (LogMsg.retrievingFailed w.self.name)], by
        simp [_startRetrievingUpdates, emit_trace]⟩
    | resolve v =>
      cases v with
      | nullish => exact ⟨[Event.log (LogMsg.retrievingFailed w.self.name)], by
          simp [_startRetrievingUpdates, emit_trace]⟩
      | object m c =>
        obtain ⟨more, h⟩ := ih (updateSpeaker (onUpdate (w.emit [Event.getUpdate]) c))
        refine ⟨slicesOf c ++ ((if w.self._speakerService then [Event.speakerUpdate] else [])
          ++ Event.getUpdate :: more), ?_⟩
        rw [_startRetrievingUpdates, h]
        simp only [onUpdate_eq, updateSpeaker_eq, emit_trace, emit_self, List.append_assoc,
          List.singleton_append, List.cons_append, List.nil_append]

/-- The polling loop calls neither `setTimeout`, `login()` nor `logout()`. -/
theorem poll_quiet (script : List Outcome) (w : World) :
    ∃ es, (_startRetrievingUpdates w script).trace = w.trace ++ es ∧
      ∀ ev ∈ es, ev.isSetTimeout = false ∧ ev.isLogin = false ∧ ev.isLogout = false := by
  induction script generalizing w with
  | nil => exact ⟨[Event.getUpdate], rfl, by simp [Event.isSetTimeout, Event.isLogin, Event.isLogout]⟩
  | cons o rest ih =>
    have hfail : ∃ es, ((w.emit [Event.getUpdate]).emit
          [Event.log (LogMsg.retrievingFailed w.self.name)]).trace = w.trace ++ es ∧
        ∀ ev ∈ es, ev.isSetTimeout = false ∧ ev.isLogin = false ∧ ev.isLogout = false :=
      ⟨[Event.getUpdate, Event.log (LogMsg.retrievingFailed w.self.name)],
        by simp [emit_trace], by simp [Event.isSetTimeout, Event.isLogin, Event.isLogout]⟩
    cases o with
    | reject c => exact hfail
    | resolve v =>
      cases v with
      | nullish => exact hfail
      | object m c =>
        obtain ⟨es, h, hq⟩ := ih (updateSpeaker (onUpdate (w.emit [Event.getUpdate]) c))
        refine ⟨iterationOf w.self._speakerService c ++ es, ?_, ?_⟩
        · rw [_startRetrievingUpdates, h]
          simp only [onUpdate_eq, updateSpeaker_eq, emit_trace, emit_self, iterationOf,
            List.append_assoc, List.singleton_append, List.cons_append, List.nil_append]
        · intro ev hev
          rcases List.mem_append.1 hev with h1 | h2
          · have : ev = Event.getUpdate ∨ ev ∈ slicesOf c ∨ ev = Event.speakerUpdate := by
              simp only [iterationOf, List.mem_cons, List.mem_append] at h1
              rcases h1 with h1 | h1 | h1
              · exact Or.inl h1
              · exact Or.inr (Or.inl h1)
              · split at h1
                · simp at h1; exact Or.inr (Or.inr h1)
                · simp at h1
            rcases this with h3 | h3 | h3
            · subst h3; simp [Event.isSetTimeout, Event.isLogin, Event.isLogout]
            · cases c with
              | none => simp [slicesOf] at h3
              | some r =>
                simp only [slicesOf, List.mem_cons, List.mem_singleton, List.not_mem_nil,
                  or_false] at h3
                rcases h3 with h3 | h3 <;> subst h3 <;>
                  simp [Event.isSetTimeout, Event.isLogin, Event.isLogout]
            · subst h3; simp [Event.isSetTimeout, Event.isLogin, Event.isLogout]
          · exact hq ev h2

end DacpAccessory

namespace DacpAccessory

/-! ## The connect phase -/

/-- A rejected `login()`: log, `logout()`, connect again. -/
theorem connect_login_rejected (w : World) (cause : Cause) (rest : List Outcome) :
    _connectToDacpDevice w (Outcome.reject cause :: rest)
      = _connectToDacpDevice
          (w.emit [Event.login (loginHost w.self) w.self.pairing,
                   Event.log (LogMsg.connectionFailed w.self.name cause), Event.logout]) rest := by
  simp [_connectToDacpDevice, onConnectFailure, emit_emit, emit_self]

/-- A rejected `getServerInfo()`: log, `logout()`, connect again. -/
theorem connect_info_rejected (w : World) (v : Reply) (cause : Cause) (rest : List Outcome) :
    _connectToDacpDevice w (Outcome.resolve v :: Outcome.reject cause :: rest)
      = _connectToDacpDevice
          (w.emit [Event.login (loginHost w.self) w.self.pairing, Event.getServerInfo,
                   Event.log (LogMsg.connectionFailed w.self.name cause), Event.logout]) rest := by
  simp [_connectToDacpDevice, onConnectFailure, emit_emit, emit_self]

/-- The connect phase assigns no field. -/
theorem connect_self (script : List Outcome) (w : World) :
    (_connectToDacpDevice w script).self = w.self := by
  induction w, script using _connectToDacpDevice.induct with
  | case1 w => rfl
  | case2 w error rest ih => rw [_connectToDacpDevice, ih]; rfl
  | case3 w v => rfl
  | case4 w v error rest ih => rw [_connectToDacpDevice, ih]; rfl
  | case5 w v rest ih => rw [_connectToDacpDevice, ih]; rfl
  | case6 w v c rest ih => rw [_connectToDacpDevice, ih]; rfl
  | case7 w v msrv c rest => rw [_connectToDacpDevice, poll_self]; rfl

/-- The connect phase starts by issuing `login()` with the recorded endpoint and the
configured pairing credential. -/
theorem connect_head (script : List Outcome) (w : World) :
    ∃ more, (_connectToDacpDevice w script).trace
      = w.trace ++ Event.login (loginHost w.self) w.self.pairing :: more := by
  induction w, script using _connectToDacpDevice.induct with
  | case1 w => exact ⟨[], rfl⟩
  | case2 w error rest ih =>
    obtain ⟨more, h⟩ := ih
    exact ⟨_, by rw [_connectToDacpDevice, h]; simp [onConnectFailure, emit_trace]; rfl⟩
  | case3 w v => exact ⟨[Event.getServerInfo], rfl⟩
  | case4 w v error rest ih =>
    obtain ⟨more, h⟩ := ih
    exact ⟨_, by rw [_connectToDacpDevice, h]; simp [onConnectFailure, emit_trace]; rfl⟩
  | case5 w v rest ih =>
    obtain ⟨more, h⟩ := ih
    exact ⟨_, by rw [_connectToDacpDevice, h]; simp [onConnectFailure, emit_trace]; rfl⟩
  | case6 w v c rest ih =>
    obtain ⟨more, h⟩ := ih
    exact ⟨_, by rw [_connectToDacpDevice, h]; simp [onConnectFailure, emit_trace]; rfl⟩
  | case7 w v msrv c rest =>
    obtain ⟨more, h⟩ := poll_head rest
      (w.emit [Event.login (loginHost w.self) w.self.pairing, Event.getServerInfo,
               Event.log (LogMsg.connected msrv.minm)])
    exact ⟨_, by rw [_connectToDacpDevice, h]; simp [emit_trace]; rfl⟩

/-- The connect phase, and the polling it starts, never call `setTimeout`. -/
theorem connect_no_timer (script : List Outcome) (w : World) :
    ∃ es, (_connectToDacpDevice w script).trace = w.trace ++ es ∧
      ∀ ev ∈ es, ev.isSetTimeout = false := by
  induction w, script using _connectToDacpDevice.induct with
  | case1 w => exact ⟨_, rfl, by simp [Event.isSetTimeout]⟩
  | case2 w error rest ih =>
    obtain ⟨es, h, hq⟩ := ih
    refine ⟨_, by rw [_connectToDacpDevice, h]; simp only [onConnectFailure, emit_trace,
      List.append_assoc]; rfl, ?_⟩
    intro ev hev
    simp only [List.mem_append, List.mem_cons, List.mem_singleton, List.not_mem_nil,
      or_false] at hev
    rcases hev with hev | (hev | hev) | hev
    · subst hev; rfl
    · subst hev; rfl
    · subst hev; rfl
    · exact hq ev hev
  | case3 w v => exact ⟨_, rfl, by simp [Event.isSetTimeout]⟩
  | case4 w v error rest ih =>
    obtain ⟨es, h, hq⟩ := ih
    refine ⟨_, by rw [_connectToDacpDevice, h]; simp only [onConnectFailure, emit_trace,
      List.append_assoc]; rfl, ?_⟩
    intro ev hev
    simp only [List.mem_append, List.mem_cons, List.mem_singleton, List.not_mem_nil,
      or_false] at hev
    rcases hev with (hev | hev) | (hev | hev) | hev
    · subst hev; rfl
    · subst hev; rfl
    · subst hev; rfl
    · subst hev; rfl
    · exact hq ev hev
  | case5 w v rest ih =>
    obtain ⟨es, h, hq⟩ := ih
    refine ⟨_, by rw [_connectToDacpDevice, h]; simp only [onConnectFailure, emit_trace,
      List.append_assoc]; rfl, ?_⟩
    intro ev hev
    simp only [List.mem_append, List.mem_cons, List.mem_singleton, List.not_mem_nil,
      or_false] at hev
    rcases hev with (hev | hev) | (hev | hev) | hev
    · subst hev; rfl
    · subst hev; rfl
    · subst hev; rfl
    · subst hev; rfl
    · exact hq ev hev
  | case6 w v c rest ih =>
    obtain ⟨es, h, hq⟩ := ih
    refine ⟨_, by rw [_connectToDacpDevice, h]; simp only [onConnectFailure, emit_trace,
      List.append_assoc]; rfl, ?_⟩
    intro ev hev
    simp only [List.mem_append, List.mem_cons, List.mem_singleton, List.not_mem_nil,
      or_false] at hev
    rcases hev with (hev | hev) | (hev | hev) | hev
    · subst hev; rfl
    · subst hev; rfl
    · subst hev; rfl
    · subst hev; rfl
    · exact hq ev hev
  | case7 w v msrv c rest =>
    obtain ⟨es, h, hq⟩ := poll_quiet rest
      (w.emit [Event.login (loginHost w.self) w.self.pairing, Event.getServerInfo,
               Event.log (LogMsg.connected msrv.minm)])
    refine ⟨_, by rw [_connectToDacpDevice, h]; simp only [emit_trace, List.append_assoc]; rfl, ?_⟩
    intro ev hev
    simp only [List.mem_append, List.mem_cons, List.mem_singleton, List.not_mem_nil,
      or_false] at hev
    rcases hev with (hev | hev | hev) | hev
    · subst hev; rfl
    · subst hev; rfl
    · subst hev; rfl
    · exact (hq ev hev).1

/-- Events that are not `setTimeout` calls leave the number of timers unchanged. -/
theorem countP_setTimeout_append (t es : List Event)
    (h : ∀ ev ∈ es, ev.isSetTimeout = false) :
    (t ++ es).countP Event.isSetTimeout = t.countP Event.isSetTimeout := by
  rw [List.countP_append]
  have : es.countP Event.isSetTimeout = 0 := by
    rw [List.countP_eq_zero]
    intro ev hev
    simp [h ev hev]
  omega

end DacpAccessory

namespace DacpAccessory

/-! ## The polling phase on a rejected `getUpdate()` -/

/-- C1, as stated, fails: with the counter at 0, a rejected `getUpdate()` leaves the
counter at 0 (not 1), calls `logout()` zero times and schedules no reconnect; after a
successful connect, the whole trace of a poll failure ends with the log line, although
the script still holds outcomes for a later `login()`. -/
theorem C1_poll_rejection_counterexample :
    (_startRetrievingUpdates (withCounter sampleConfig 0 none)
        [Outcome.reject (Cause.rejected "ECONNRESET")]).self._dacpErrors = JsNum.num 0
    ∧ (_startRetrievingUpdates (withCounter sampleConfig 0 none)
        [Outcome.reject (Cause.rejected "ECONNRESET")]).self._dacpErrors
        ≠ (withCounter sampleConfig 0 none).self._dacpErrors.increment
    ∧ (_startRetrievingUpdates (withCounter sampleConfig 0 none)
        [Outcome.reject (Cause.rejected "ECONNRESET")]).trace.countP Event.isLogout = 0
    ∧ (_startRetrievingUpdates (withCounter sampleConfig 0 none)
        [Outcome.reject (Cause.rejected "ECONNRESET")]).trace.countP Event.isSetTimeout = 0
    ∧ (serviceUp (withCounter sampleConfig 0 none) { host := "10.0.0.5", port := 3689 }
        [Outcome.resolve Reply.nullish,
         Outcome.resolve (Reply.object (some { minm := some "Library" }) none),
         Outcome.reject (Cause.rejected "ECONNRESET"),
         Outcome.resolve Reply.nullish]).trace
      = [Event.login "10.0.0.5:3689" "0x0000000000000001", Event.getServerInfo,
         Event.log (LogMsg.connected (some "Library")), Event.getUpdate,
         Event.log (LogMsg.retrievingFailed "iTunes")] := by
  refine ⟨by decide, by decide, by decide, by decide, by decide⟩

/-- C1, amended: when `getUpdate()` is rejected after any number of completed
iterations, the `catch` of the polling chain only writes the log line "Retrieving
updates from DACP server failed." and the loop ends: no field of the accessory
changes (the failure counter keeps its value), and the calls made are the completed
iterations, the rejected `getUpdate()` and the log line, none of which is a
`logout()`, a `login()` or a `setTimeout`. -/
theorem C1_poll_rejection_only_logs (w : World) (snaps : List Snapshot) (cause : Cause)
    (rest : List Outcome) :
    (_startRetrievingUpdates w
        (snaps.map Snapshot.outcome ++ Outcome.reject cause :: rest)).self = w.self
    ∧ (_startRetrievingUpdates w
        (snaps.map Snapshot.outcome ++ Outcome.reject cause :: rest)).self._dacpErrors
        = w.self._dacpErrors
    ∧ ∃ es, (_startRetrievingUpdates w
        (snaps.map Snapshot.outcome ++ Outcome.reject cause :: rest)).trace = w.trace ++ es
      ∧ es = iterationsOf w.self._speakerService snaps
              ++ [Event.getUpdate, Event.log (LogMsg.retrievingFailed w.self.name)]
      ∧ ∀ ev ∈ es, ev.isLogout = false ∧ ev.isLogin = false ∧ ev.isSetTimeout = false := by
  refine ⟨poll_self _ w, by rw [poll_self], ?_⟩
  obtain ⟨es, h, hq⟩ := poll_quiet (snaps.map Snapshot.outcome ++ Outcome.reject cause :: rest) w
  refine ⟨es, h, ?_, fun ev hev => ⟨(hq ev hev).2.2, (hq ev hev).2.1, (hq ev hev).1⟩⟩
  have h2 : (_startRetrievingUpdates w
      (snaps.map Snapshot.outcome ++ Outcome.reject cause :: rest)).trace
      = w.trace ++ (iterationsOf w.self._speakerService snaps
          ++ [Event.getUpdate, Event.log (LogMsg.retrievingFailed w.self.name)]) := by
    rw [poll_steps]
    simp [_startRetrievingUpdates, emit_trace, emit_self]
  rw [h] at h2
  exact List.append_cancel_left h2

/-! ## The failure handler -/

/-- C2, evaluated where it fails: in a scope with no binding of `error`, with the
counter at any integer `c` and for any cause, `_onDacpFailure` throws a
`ReferenceError` at line 136, after two log lines: the counter still holds `c`,
`logout()` is not called and no timer is scheduled. -/
theorem C2_onDacpFailure_throws_before_counting (config : Config) (c : Int) (e : Cause) :
    (_onDacpFailure (withCounter config c none) e).2
        = Completion.throw (Cause.referenceError "error")
    ∧ (_onDacpFailure (withCounter config c none) e).1.self._dacpErrors = JsNum.num c
    ∧ (_onDacpFailure (withCounter config c none) e).1.trace
        = [Event.log (LogMsg.fatalError config.name), Event.log LogMsg.blank]
    ∧ (_onDacpFailure (withCounter config c none) e).1.trace.countP Event.isLogout = 0
    ∧ (_onDacpFailure (withCounter config c none) e).1.trace.countP Event.isSetTimeout = 0 := by
  refine ⟨rfl, rfl, rfl, ?_, ?_⟩ <;>
    simp [_onDacpFailure, withCounter, World.emit, Event.isLogout, Event.isSetTimeout]

/-- What lines 138-152 do once line 136 is passed (a binding of `error` exists):
with an integer counter `c` such that `c + 1 < 5` the counter becomes `c + 1`, and
the calls are the log lines, one `logout()` and one `setTimeout` of 120000 ms. -/
theorem onDacpFailure_after_line_136 (w : World) (e : Cause) (json : String) (c : Int)
    (hg : w.globalError = some json) (hc : w.self._dacpErrors = JsNum.num c)
    (hlt : c + 1 < 5) :
    (_onDacpFailure w e).2 = Completion.normal
    ∧ (_onDacpFailure w e).1.self._dacpErrors = JsNum.num (c + 1)
    ∧ (_onDacpFailure w e).1.trace = w.trace ++
        [Event.log (LogMsg.fatalError w.self.name), Event.log LogMsg.blank,
         Event.log (LogMsg.errorJson json), Event.log LogMsg.blank, Event.logout,
         Event.log (LogMsg.restarting 120),
         Event.setTimeout Callback.connectToDacpDevice 120000, Event.log LogMsg.blank] := by
  have hdec : decide (c + 1 < 5) = true := by simpa using hlt
  simp [_onDacpFailure, emit_globalError, hg, emit_self, hc, JsNum.increment, JsNum.lessThan,
    hdec, emit_trace]

/-- C3, evaluated where it fails: the constructor does not assign `_dacpErrors`, so
after construction the counter is `undefined`, not 0; the first `++` stores `NaN`, not
1; `NaN < 5` is false, so a first failure that reaches line 141 gives up and schedules
no timer. -/
theorem C3_counter_not_initialised (config : Config) (json : String) (e : Cause) :
    (DacpAccessory.constructor config)._dacpErrors = JsNum.undefined
    ∧ (DacpAccessory.constructor config)._dacpErrors ≠ JsNum.num 0
    ∧ (DacpAccessory.constructor config)._dacpErrors.increment = JsNum.nan
    ∧ (DacpAccessory.constructor config)._dacpErrors.increment ≠ JsNum.num 1
    ∧ (_onDacpFailure (World.init config (some json)) e).1.self._dacpErrors = JsNum.nan
    ∧ (_onDacpFailure (World.init config (some json)) e).1.trace.countP Event.isSetTimeout = 0 := by
  refine ⟨rfl, by simp [DacpAccessory.constructor], rfl, by simp [DacpAccessory.constructor,
    JsNum.increment], rfl, ?_⟩
  simp [_onDacpFailure, World.init, World.emit, DacpAccessory.constructor, JsNum.increment,
    JsNum.lessThan, Event.isSetTimeout]

/-- C4, evaluated where it fails: in a scope with no binding of `error`, the listener
of the client's `error` event ends, for every accessory state and every cause, by
throwing a `ReferenceError` to the emitter. -/
theorem C4_error_listener_throws (self : Fields) (trace : List Event) (e : Cause) :
    (onClientError { self := self, trace := trace, globalError := none } e).2
      = Completion.throw (Cause.referenceError "error") := by
  rfl

/-- C5: whenever `_onDacpFailure` leaves the counter at an integer that is 5 or more,
the calls it made contain no `setTimeout` and no `login()` (the first call of
`_connectToDacpDevice`): no timer is scheduled and the connect phase is not invoked. -/
theorem C5_halt_is_permanent (w : World) (e : Cause) (n : Int)
    (hn : (_onDacpFailure w e).1.self._dacpErrors = JsNum.num n) (h5 : 5 ≤ n) :
    ∃ es, (_onDacpFailure w e).1.trace = w.trace ++ es
      ∧ (∀ ev ∈ es, ev.isSetTimeout = false ∧ ev.isLogin = false)
      ∧ (_onDacpFailure w e).1.trace.countP Event.isSetTimeout
          = w.trace.countP Event.isSetTimeout := by
  have key : ∃ es, (_onDacpFailure w e).1.trace = w.trace ++ es
      ∧ (∀ ev ∈ es, ev.isSetTimeout = false ∧ ev.isLogin = false) := by
    cases hg : w.globalError with
    | none =>
      refine ⟨[Event.log (LogMsg.fatalError w.self.name), Event.log LogMsg.blank], ?_, ?_⟩
      · simp [_onDacpFailure, emit_globalError, hg, emit_trace]
      · simp [Event.isSetTimeout, Event.isLogin]
    | some json =>
      have hcount : w.self._dacpErrors.increment = JsNum.num n := by
        simpa [_onDacpFailure, emit_globalError, hg, emit_self, apply_ite] using hn
      have hlt : (w.self._dacpErrors.increment).lessThan 5 = false := by
        rw [hcount]
        simp [JsNum.lessThan, h5]
      refine ⟨[Event.log (LogMsg.fatalError w.self.name), Event.log LogMsg.blank,
          Event.log (LogMsg.errorJson json), Event.log LogMsg.blank, Event.logout,
          Event.log LogMsg.givingUp, Event.log LogMsg.blank, Event.log LogMsg.fileAnIssue,
          Event.log LogMsg.blank], ?_, ?_⟩
      · simp [_onDacpFailure, emit_globalError, hg, emit_self, hlt, emit_trace]
      · simp [Event.isSetTimeout, Event.isLogin]
  obtain ⟨es, h, hq⟩ := key
  exact ⟨es, h, hq, by rw [h]; exact countP_setTimeout_append _ _ (fun ev hev => (hq ev hev).1)⟩

/-- C5 at a concrete input: with five failures counted, a sixth failure (counter 6)
schedules no timer and issues no `login()`. -/
theorem C5_halt_is_permanent_witness :
    (_onDacpFailure (withCounter sampleConfig 5 (some "{}"))
        (Cause.rejected "ECONNRESET")).1.self._dacpErrors = JsNum.num 6
    ∧ (5 : Int) ≤ 6
    ∧ ∃ es, (_onDacpFailure (withCounter sampleConfig 5 (some "{}"))
          (Cause.rejected "ECONNRESET")).1.trace
          = (withCounter sampleConfig 5 (some "{}")).trace ++ es
      ∧ (∀ ev ∈ es, ev.isSetTimeout = false ∧ ev.isLogin = false)
      ∧ (_onDacpFailure (withCounter sampleConfig 5 (some "{}"))
          (Cause.rejected "ECONNRESET")).1.trace.countP Event.isSetTimeout
          = (withCounter sampleConfig 5 (some "{}")).trace.countP Event.isSetTimeout :=
  ⟨by decide, by decide,
    C5_halt_is_permanent (withCounter sampleConfig 5 (some "{}")) (Cause.rejected "ECONNRESET") 6
      (by decide) (by decide)⟩

end DacpAccessory

namespace DacpAccessory

/-! ## Projection of a status record -/

/-- C6: for every status record `r`, `_updateNowPlaying` makes exactly one call, to
the Now-Playing projector, with track = cann, album = canl, artist = cana,
duration = cast, position = cast - cant and playerState = caps (for integer fields
the position is the integer difference); `_updatePlayerControlService` makes exactly
one call, to the Player-Controls projector, with playerState = caps; neither changes
a field of the accessory. -/
theorem C6_slices_forwarded (w : World) (r : Status) :
    (_updateNowPlaying w r).trace = w.trace ++
        [Event.updateNowPlaying
          { track := r.cann, album := r.canl, artist := r.cana, duration := r.cast,
            position := r.cast.sub r.cant, playerState := r.caps }]
    ∧ (_updatePlayerControlService w r).trace = w.trace ++
        [Event.updatePlayerState { playerState := r.caps }]
    ∧ (_updateNowPlaying w r).self = w.self
    ∧ (_updatePlayerControlService w r).self = w.self
    ∧ (∀ a b : Int, (JsNum.num a).sub (JsNum.num b) = JsNum.num (a - b))
    ∧ (∀ (t : List Event) (a b : Int),
        (_updateNowPlaying { w with trace := t }
          { r with cast := JsNum.num a, cant := JsNum.num b }).trace
        = t ++ [Event.updateNowPlaying
          { track := r.cann, album := r.canl, artist := r.cana, duration := JsNum.num a,
            position := JsNum.num (a - b), playerState := r.caps }]) := by
  refine ⟨rfl, rfl, rfl, rfl, fun _ _ => rfl, fun _ _ _ => rfl⟩

/-! ## The speaker tick -/

/-- C7, as stated, fails: with `'volume-control': false` in the features, a
successful snapshot with a status record is followed by the two slices and the
next `getUpdate()`, and the Speaker projector is not notified at all. -/
theorem C7_speaker_counterexample :
    (_startRetrievingUpdates (World.init noVolumeConfig none)
        [Outcome.resolve (Reply.object none (some sampleStatus))]).trace
      = [Event.getUpdate,
         Event.updateNowPlaying
          { track := some "Track", album := some "Album", artist := some "Artist",
            position := JsNum.num 50000, duration := JsNum.num 200000,
            playerState := JsNum.num 4 },
         Event.updatePlayerState { playerState := JsNum.num 4 },
         Event.getUpdate]
    ∧ (_startRetrievingUpdates (World.init noVolumeConfig none)
        [Outcome.resolve (Reply.object none (some sampleStatus))]).trace.countP
          Event.isSpeakerUpdate = 0 := by
  refine ⟨by decide, by decide⟩

/-- C7, amended: for an accessory whose `_speakerService` is what the constructor
left (assigned unless the feature `'volume-control'` is `false`), every successful
snapshot, with or without a status record, is followed by its slices, then by
exactly one speaker notification when `'volume-control'` is not `false` and by none
when it is `false`, and then by the next `getUpdate()`. -/
theorem C7_speaker_tick (w : World) (s : Snapshot) (rest : List Outcome)
    (h : w.self._speakerService = getSpeakerService w.self.features) :
    ∃ more, (_startRetrievingUpdates w (s.outcome :: rest)).trace
      = w.trace ++ Event.getUpdate ::
          (slicesOf s.cmst
            ++ (if w.self.features.volumeControl = some false then [] else [Event.speakerUpdate])
            ++ Event.getUpdate :: more) := by
  obtain ⟨more, hm⟩ := poll_head rest (w.emit (iterationOf w.self._speakerService s.cmst))
  refine ⟨more, ?_⟩
  rw [poll_step, hm, emit_trace, h]
  by_cases hv : w.self.features.volumeControl = some false
  · simp [iterationOf, getSpeakerService, hv]
  · simp [iterationOf, getSpeakerService, hv]

/-- C7 at a concrete input: the default configuration and a snapshot with a status
record. -/
theorem C7_speaker_tick_witness :
    (World.init sampleConfig none).self._speakerService
        = getSpeakerService (World.init sampleConfig none).self.features
    ∧ ∃ more, (_startRetrievingUpdates (World.init sampleConfig none)
          (Snapshot.outcome { msrv := none, cmst := some sampleStatus } :: [])).trace
      = (World.init sampleConfig none).trace ++ Event.getUpdate ::
          (slicesOf (Snapshot.cmst { msrv := none, cmst := some sampleStatus })
            ++ (if (World.init sampleConfig none).self.features.volumeControl = some false
                then [] else [Event.speakerUpdate])
            ++ Event.getUpdate :: more) :=
  ⟨by decide,
    C7_speaker_tick (World.init sampleConfig none) { msrv := none, cmst := some sampleStatus } []
      (by decide)⟩

/-! ## Order of the polling loop -/

/-- The slices among the calls of a run of iterations are the slices of the
snapshots in arrival order. -/
theorem filter_slices_iterationsOf (speaker : Bool) (snaps : List Snapshot) :
    (iterationsOf speaker snaps).filter Event.isSlice = slicesOfAll snaps := by
  induction snaps with
  | nil => rfl
  | cons s ss ih =>
    have h1 : (slicesOf s.cmst).filter Event.isSlice = slicesOf s.cmst := by
      cases s.cmst <;> simp [slicesOf, Event.isSlice]
    have h2 : (if speaker then [Event.speakerUpdate] else []).filter Event.isSlice = [] := by
      cases speaker <;> simp [Event.isSlice]
    simp [iterationsOf, slicesOfAll, iterationOf, List.filter_append, ih, h1, h2,
      List.filter_cons, Event.isSlice]

/-- A run of iterations issues one `getUpdate()` per snapshot. -/
theorem count_getUpdate_iterationsOf (speaker : Bool) (snaps : List Snapshot) :
    (iterationsOf speaker snaps).countP Event.isGetUpdate = snaps.length := by
  induction snaps with
  | nil => rfl
  | cons s ss ih =>
    have h1 : (slicesOf s.cmst).countP Event.isGetUpdate = 0 := by
      cases s.cmst <;> simp [slicesOf, Event.isGetUpdate]
    have h2 : (if speaker then [Event.speakerUpdate] else []).countP Event.isGetUpdate = 0 := by
      cases speaker <;> simp [Event.isGetUpdate]
    simp [iterationsOf, iterationOf, List.countP_append, List.countP_cons, ih, h1, h2,
      Event.isGetUpdate]

/-- C8: for every sequence of successful snapshots, the calls of the polling loop
are, snapshot by snapshot, `getUpdate()`, the Now-Playing slice then the
Player-Control slice (only when the snapshot has a status record), the speaker
tick when there is a speaker service, and finally the one `getUpdate()` that is in
flight; so the slices reach the projectors in arrival order, and the number of
`getUpdate()` calls is the number of completed snapshots plus the one in flight. -/
theorem C8_polling_order (w : World) (snaps : List Snapshot) :
    (_startRetrievingUpdates w (snaps.map Snapshot.outcome)).trace
      = w.trace ++ (iterationsOf w.self._speakerService snaps ++ [Event.getUpdate])
    ∧ (iterationsOf w.self._speakerService snaps ++ [Event.getUpdate]).filter Event.isSlice
      = slicesOfAll snaps
    ∧ (iterationsOf w.self._speakerService snaps ++ [Event.getUpdate]).countP Event.isGetUpdate
      = snaps.length + 1
    ∧ (∀ (s : Snapshot) (rest : List Outcome),
        ∃ more, (_startRetrievingUpdates w (s.outcome :: rest)).trace
          = w.trace ++ (Event.getUpdate :: slicesOf s.cmst
              ++ (if w.self._speakerService then [Event.speakerUpdate] else [])
              ++ Event.getUpdate :: more)) := by
  refine ⟨?_, ?_, ?_, ?_⟩
  · have h := poll_steps snaps w []
    rw [List.append_nil] at h
    rw [h]
    simp [_startRetrievingUpdates, emit_trace]
  · rw [List.filter_append, filter_slices_iterationsOf]
    simp [Event.isSlice]
  · rw [List.countP_append, count_getUpdate_iterationsOf]
    simp [Event.isGetUpdate]
  · intro s rest
    obtain ⟨more, hm⟩ := poll_head rest (w.emit (iterationOf w.self._speakerService s.cmst))
    refine ⟨more, ?_⟩
    rw [poll_step, hm, emit_trace]
    simp [iterationOf]

end DacpAccessory

namespace DacpAccessory

/-! ## Connect failures and the first poll -/

/-- C9: when `login()` is rejected, or `login()` succeeds and `getServerInfo()` is
rejected, the calls are the failed attempt, the log line, exactly one `logout()`, and
at once the `login()` of a new connect attempt with the same host string and the
same pairing credential; the run continues as that new attempt; no field of the
accessory changes (the failure counter keeps its value) and the number of
`setTimeout` calls in the trace stays what it was. -/
theorem C9_connect_failure_retries (w : World) (v : Reply) (cause : Cause)
    (rest : List Outcome) :
    (∃ more, (_connectToDacpDevice w (Outcome.reject cause :: rest)).trace
      = w.trace ++ [Event.login (loginHost w.self) w.self.pairing,
          Event.log (LogMsg.connectionFailed w.self.name cause), Event.logout,
          Event.login (loginHost w.self) w.self.pairing] ++ more)
    ∧ (∃ more, (_connectToDacpDevice w (Outcome.resolve v :: Outcome.reject cause :: rest)).trace
      = w.trace ++ [Event.login (loginHost w.self) w.self.pairing, Event.getServerInfo,
          Event.log (LogMsg.connectionFailed w.self.name cause), Event.logout,
          Event.login (loginHost w.self) w.self.pairing] ++ more)
    ∧ _connectToDacpDevice w (Outcome.reject cause :: rest)
      = _connectToDacpDevice
          (w.emit [Event.login (loginHost w.self) w.self.pairing,
                   Event.log (LogMsg.connectionFailed w.self.name cause), Event.logout]) rest
    ∧ _connectToDacpDevice w (Outcome.resolve v :: Outcome.reject cause :: rest)
      = _connectToDacpDevice
          (w.emit [Event.login (loginHost w.self) w.self.pairing, Event.getServerInfo,
                   Event.log (LogMsg.connectionFailed w.self.name cause), Event.logout]) rest
    ∧ (∀ script, (_connectToDacpDevice w script).self._dacpErrors = w.self._dacpErrors)
    ∧ (∀ script, (_connectToDacpDevice w script).trace.countP Event.isSetTimeout
        = w.trace.countP Event.isSetTimeout) := by
  refine ⟨?_, ?_, connect_login_rejected w cause rest, connect_info_rejected w v cause rest,
    fun script => by rw [connect_self], ?_⟩
  · obtain ⟨more, h⟩ := connect_head rest
      (w.emit [Event.login (loginHost w.self) w.self.pairing,
               Event.log (LogMsg.connectionFailed w.self.name cause), Event.logout])
    refine ⟨more, ?_⟩
    rw [connect_login_rejected, h]
    simp [emit_trace, emit_self]
  · obtain ⟨more, h⟩ := connect_head rest
      (w.emit [Event.login (loginHost w.self) w.self.pairing, Event.getServerInfo,
               Event.log (LogMsg.connectionFailed w.self.name cause), Event.logout])
    refine ⟨more, ?_⟩
    rw [connect_info_rejected, h]
    simp [emit_trace, emit_self]
  · intro script
    obtain ⟨es, h, hq⟩ := connect_no_timer script w
    rw [h]
    exact countP_setTimeout_append _ _ hq

/-- C10: `serviceUp` records host and port and issues `login()` with the host string
"host:port" and the configured pairing credential; when `login()` and
`getServerInfo()` both succeed, the calls are `login`, `getServerInfo`, the
"Connected to" log line and one `getUpdate()`, which is still outstanding: the
client calls are exactly login, getServerInfo, getUpdate. Host "10.0.0.5" and port
3689 give the host string "10.0.0.5:3689". -/
theorem C10_serviceUp_connects_then_polls (w : World) (service : Service) (v : Reply)
    (msrv : Msrv) (cmst : Option Status) :
    (∀ script, (serviceUp w service script).self._remoteHost = some service.host
      ∧ (serviceUp w service script).self._remotePort = some service.port
      ∧ ∃ more, (serviceUp w service script).trace
          = w.trace ++ Event.login (service.host ++ ":" ++ toString service.port)
              w.self.pairing :: more)
    ∧ (serviceUp w service
          [Outcome.resolve v, Outcome.resolve (Reply.object (some msrv) cmst)]).trace
      = w.trace ++ [Event.login (service.host ++ ":" ++ toString service.port) w.self.pairing,
          Event.getServerInfo, Event.log (LogMsg.connected msrv.minm), Event.getUpdate]
    ∧ ([Event.login (service.host ++ ":" ++ toString service.port) w.self.pairing,
          Event.getServerInfo, Event.log (LogMsg.connected msrv.minm),
          Event.getUpdate].filter Event.isClientCall
      = [Event.login (service.host ++ ":" ++ toString service.port) w.self.pairing,
          Event.getServerInfo, Event.getUpdate])
    ∧ (∀ rest, ∃ more, (serviceUp w service
          (Outcome.resolve v :: Outcome.resolve (Reply.object (some msrv) cmst) :: rest)).trace
      = w.trace ++ [Event.login (service.host ++ ":" ++ toString service.port) w.self.pairing,
          Event.getServerInfo, Event.log (LogMsg.connected msrv.minm), Event.getUpdate] ++ more)
    ∧ (serviceUp (World.init sampleConfig none) { host := "10.0.0.5", port := 3689 }
          [Outcome.resolve Reply.nullish,
           Outcome.resolve (Reply.object (some { minm := some "Library" }) none)]).trace
      = [Event.login "10.0.0.5:3689" "0x0000000000000001", Event.getServerInfo,
         Event.log (LogMsg.connected (some "Library")), Event.getUpdate] := by
  refine ⟨?_, ?_, ?_, ?_, by decide⟩
  · intro script
    refine ⟨?_, ?_, ?_⟩
    · simp [serviceUp, connect_self]
    · simp [serviceUp, connect_self]
    · obtain ⟨more, h⟩ := connect_head script
        { w with self := { w.self with _remoteHost := some service.host
                                       _remotePort := some service.port } }
      exact ⟨more, by simpa [serviceUp, loginHost, templateString, templateNumber] using h⟩
  · simp [serviceUp, _connectToDacpDevice, _startRetrievingUpdates, emit_trace, loginHost,
      templateString, templateNumber]
  · simp [Event.isClientCall]
  · intro rest
    obtain ⟨more, h⟩ := poll_head rest
      (World.emit { w with self := { w.self with _remoteHost := some service.host
                                                 _remotePort := some service.port } }
        [Event.login (service.host ++ ":" ++ toString service.port) w.self.pairing,
         Event.getServerInfo, Event.log (LogMsg.connected msrv.minm)])
    refine ⟨more, ?_⟩
    simp only [serviceUp, _connectToDacpDevice, loginHost, templateString, templateNumber]
    rw [h]
    simp [emit_trace]

end DacpAccessory
